import Mathlib

/-!
Shallow embedding of the fact-extraction / storage / hybrid-search pipeline of
`src/code_recall/extract.py` and `src/code_recall/prompts.py`.

External collaborators (the Gemini LLM, the Ollama embedding endpoint, the
fastembed sparse encoder, the Qdrant vector store, and mem0's `memory.add`) are
modelled as response functions collected in a `World` structure; each embedded
function consumes the responses exactly the way the Python code consumes the
corresponding HTTP / SDK results, including which exception classes each
`try/except` catches.  Python floats on the similarity path are modelled as
rationals; Python exceptions are modelled by the `Except` monad with an
`ExcKind` naming the exception class.  Each embedded definition carries the
name of the Python function it translates.
-/

namespace CodeRecall

/-- Python exception classes that can flow through the pipeline.  Each
`except (...)` clause in the source catches an explicitly listed subset. -/
inductive ExcKind
  | typeError
  | valueError
  | keyError
  | indexError
  | attributeError
  | httpError
  | jsonDecodeError
  | stopIteration
  | runtimeError
  | apiError
  deriving DecidableEq

/-- Whitespace characters recognised by Python `str.split()` with no
argument. -/
def pyIsSpace (c : Char) : Bool :=
  c = ' ' || c = '\t' || c = '\n' || c = '\r' || c = '\x0b' || c = '\x0c'

/-- Helper for `str.split()`: split a character list on runs of whitespace,
dropping empty pieces; `acc` holds the (reversed) current word. -/
def splitWsAux : List Char → List Char → List (List Char)
  | [], acc => if acc = [] then [] else [acc.reverse]
  | c :: cs, acc =>
    if pyIsSpace c then
      (if acc = [] then splitWsAux cs [] else acc.reverse :: splitWsAux cs [])
    else splitWsAux cs (c :: acc)

/-- Python `text.split()` (no argument): whitespace-run splitting with no
empty words. -/
def pyWords (t : String) : List String :=
  (splitWsAux t.data []).map List.asString

/-- Python `str.lower()` (ASCII case folding suffices for every text the
claims touch). -/
def pyLower (s : String) : String := (s.data.map Char.toLower).asString

/-- Python `str.strip()`: drop leading and trailing whitespace. -/
def pyStrip (t : String) : String :=
  ((t.data.dropWhile pyIsSpace).reverse.dropWhile pyIsSpace).reverse.asString

/-- The set comprehension used at extract.py lines 345 and 378-379:
a set of the lowercased words of length strictly above 2. -/
def wordSet (t : String) : Finset String :=
  (((pyWords t).filter (fun s => 2 < s.length)).map pyLower).toFinset

/-- extract.py line 26. -/
def _MIN_SPECIFICITY : Int := 3

/-- extract.py line 27 (the float literal 0.85). -/
def _DEDUP_THRESHOLD : ℚ := 85 / 100

/-- extract.py line 28. -/
def _MIN_UNIQUE_WORDS : Nat := 15

/-- extract.py line 29 (the float literal 0.7). -/
def _DEDUP_COSINE_WEIGHT : ℚ := 7 / 10

/-- extract.py line 30 (the float literal 0.3). -/
def _DEDUP_JACCARD_WEIGHT : ℚ := 3 / 10

/-- extract.py line 31. -/
def _PREFETCH_LIMIT : Nat := 20

/-- extract.py line 70. -/
def _MAX_RETRIES : Nat := 1

/-- extract.py lines 341-346, `_is_low_entropy`. -/
def _is_low_entropy (text : String) : Bool :=
  if text.length < 100 then true
  else decide ((wordSet text).card < _MIN_UNIQUE_WORDS)

/-- extract.py lines 376-384, `_jaccard_word_overlap`: word-level Jaccard
similarity, with 0.0 when either word set is empty. -/
def _jaccard_word_overlap (a b : String) : ℚ :=
  let wordsA := wordSet a
  let wordsB := wordSet b
  if wordsA = ∅ ∨ wordsB = ∅ then 0
  else ((wordsA ∩ wordsB).card : ℚ) / ((wordsA ∪ wordsB).card : ℚ)

/-- A dense embedding vector (Python `list[float]`). -/
abbrev Dense : Type := List ℚ

/-- A BM25 sparse vector, the dict built at extract.py line 316. -/
structure SparseVec where
  indices : List Nat
  values : List ℚ
  deriving DecidableEq

/-- One match-condition of the Qdrant payload filter built at extract.py
lines 84-89 (json key, matched value). -/
structure FieldMatch where
  key : String
  value : String
  deriving DecidableEq

/-- The `should` (logical OR) filter of extract.py lines 84-89. -/
structure UserFilter where
  should : List FieldMatch
  deriving DecidableEq

/-- extract.py lines 84-89: the user filter matches `user_id` on either of
the two historical payload field names, combined with `should` (OR). -/
def userFilter (uid : String) : UserFilter :=
  { should := [{ key := "user_id", value := uid }, { key := "userId", value := uid }] }

/-- The body of the nearest-neighbour search request POSTed at extract.py
lines 355-358 (plus the collection from the URL).  `filter` is `none`
whenever the request json carries no "filter" key. -/
structure SearchRequest where
  collection : String
  vector : Dense
  limit : Nat
  withPayload : Bool
  filter : Option UserFilter
  deriving DecidableEq

/-- The request `_is_duplicate` issues (extract.py lines 355-358): the json
is exactly vector + limit 1 + with_payload, with no filter key. -/
def dedupRequest (collection : String) (vec : Dense) : SearchRequest :=
  { collection := collection, vector := vec, limit := 1, withPayload := true, filter := none }

/-- One parsed element of the search response `result` array read at
extract.py lines 359-363.  `score?` is `none` when the "score" key is absent
(reading it then raises KeyError); `data` is `payload.get("data", "")`;
`userId` is the payload's `user_id` field, which `_is_duplicate` never
reads. -/
structure Hit where
  score? : Option ℚ
  data : String
  userId : String
  deriving DecidableEq

/-- A query leg of the hybrid-search prefetch list (extract.py lines 95 and
99): a dense leg, or a sparse leg (the dict holding `"using": "sparse"`). -/
inductive LegQuery
  | dense (v : Dense)
  | sparse (s : SparseVec)
  deriving DecidableEq

/-- A prefetch entry built at extract.py lines 95 and 99. -/
structure Leg where
  query : LegQuery
  limit : Nat
  filter : UserFilter
  deriving DecidableEq

/-- The fusion query POSTed at extract.py lines 104-107. -/
structure FusionRequest where
  collection : String
  prefetch : List Leg
  fusion : String
  limit : Nat
  withPayload : Bool

/-- A fused result point returned by the store (opaque to the claims). -/
structure Point where
  id : String
  deriving DecidableEq

/-- One JSON array element of the query-expansion response (extract.py
line 288): a string, or some other JSON value. -/
inductive PyVal
  | str (s : String)
  | notStr
  deriving DecidableEq

/-- The parsed JSON of the query-expansion response. -/
inductive PyJson
  | arr (items : List PyVal)
  | notArr
  deriving DecidableEq

/-- Outcome of the expansion LLM call at extract.py lines 286-288, after
response-text extraction and `json.loads`:
  * `raise k` — the generate call or the attribute chain raised `k`
    (a JSONDecodeError from `json.loads` is also of this form);
  * `noText`  — no candidates or empty text, so `variants = []`;
  * `json v`  — `json.loads` succeeded with value `v`. -/
inductive ExpandOutcome
  | raise (k : ExcKind)
  | noText
  | json (v : PyJson)

/-- A candidate fact as parsed from the model's JSON (extract.py lines
153-161 read it with `.get` and tolerate absent keys, hence the `Option`
fields). -/
structure FactC where
  content : String
  category : Option String
  temporal_scope : Option String
  specificity_score : Option Int
  source_type : Option String
  entities : Option (List String)
  valid_at : Option String
  expires_at : Option String
  deriving DecidableEq

/-- The value `_parse_response` hands back when `json.loads` succeeds
(extract.py lines 263-272): a dict whose "facts" key may be absent, or a
non-dict JSON value (on which `data.get` at line 153 raises
AttributeError). -/
inductive ParsedVal
  | dict (facts? : Option (List FactC))
  | nonDict

/-- Outcome of one extraction attempt: the `generate_content` call at
extract.py line 142 together with response-text extraction and `json.loads`
inside `_parse_response`:
  * `raise k`  — the generate call itself raised `k` (uncaught);
  * `noText`   — no candidates or empty text (`_parse_response` gives None);
  * `parseFail`— `json.loads` raised JSONDecodeError, caught at line 270;
  * `parsed v` — `json.loads` succeeded with `v`. -/
inductive GenOutcome
  | raise (k : ExcKind)
  | noText
  | parseFail
  | parsed (v : ParsedVal)

/-- One reported item of the mem0 `memory.add` result consumed at extract.py
lines 325-328: `item.get("id")` and `item.get("event")`. -/
structure AddItem where
  id : Option String
  event : Option String
  deriving DecidableEq

/-- The "results" value of the add result: absent key (default `[]`),
a non-iterable value (iterating raises TypeError, caught at line 337), or
the item list. -/
inductive ResultsVal
  | absent
  | nonIterable
  | items (its : List AddItem)

/-- The `memory.add` return value as consumed at extract.py line 325:
either not a dict (then `results = []`) or a dict with a "results" value. -/
inductive AddResult
  | notDict
  | dict (rv : ResultsVal)

/-- A sparse-vector PUT issued at extract.py lines 333-336, recorded so the
theorems can talk about which points the sparse vector was attached to. -/
structure SparsePut where
  collection : String
  pointId : String
  sparse : SparseVec
  deriving DecidableEq

/-- Responses of all external collaborators.  `today` is the date
`datetime.now()` yields while the process runs (prompts.py line 73);
`embedCall` is the Ollama response consumed at extract.py lines 300-304
(already projected to the "embeddings" array, or the exception the
post/json step raised); `searchCall` answers the dedup nearest-neighbour
request; `sparseCall` is `_sparse_encode`'s result (its internal
StopIteration/RuntimeError handler already folded to `none`, extract.py
lines 311-319); `expandCall` and `genCall` are the Gemini calls;
`fusionCall` answers the hybrid fusion query; `addCall n` is the result of
the n-th `memory.add` call; `putOutcome pid` tells whether the sparse PUT
for point `pid` succeeds (False = `httpx.put` raised `httpx.HTTPError`). -/
structure World where
  today : Int
  embedCall : String → Except ExcKind (List Dense)
  searchCall : SearchRequest → Except ExcKind (List Hit)
  sparseCall : String → Option SparseVec
  expandCall : String → ExpandOutcome
  genCall : Nat → GenOutcome
  fusionCall : FusionRequest → Except ExcKind (List Point)
  addCall : Nat → AddResult
  putOutcome : String → Bool

/-- extract.py lines 297-309, `_embed_text`: returns `embeddings[0] if
embeddings else None`; its `except (httpx.HTTPError, KeyError, IndexError)`
turns exactly those exception classes into `None`, every other exception
(e.g. a JSONDecodeError from `response.json()`) propagates. -/
def _embed_text (w : World) (text : String) : Except ExcKind (Option Dense) :=
  match w.embedCall text with
  | .error k =>
    if k = .httpError ∨ k = .keyError ∨ k = .indexError then .ok none else .error k
  | .ok embeddings => .ok embeddings.head?

/-- extract.py lines 311-319, `_sparse_encode`: the fastembed call, whose
`except (StopIteration, RuntimeError)` yields `None`. -/
def _sparse_encode (w : World) (text : String) : Option SparseVec :=
  w.sparseCall text

/-- The exception classes caught by `_is_duplicate`'s
`except (httpx.HTTPError, KeyError, IndexError)` at extract.py line 371. -/
def dedupCaught (k : ExcKind) : Bool :=
  k = .httpError || k = .keyError || k = .indexError

/-- The body of `_is_duplicate`'s `try` block, extract.py lines 352-370:
embed the text (`if not embedding: return False`, so both a missing and an
empty vector yield False), issue the nearest-neighbour search, read
`results[0]["score"]` (KeyError when absent) and `payload.get("data", "")`,
and compare the weighted hybrid score against the threshold. -/
def isDupBody (w : World) (collection text : String) : Except ExcKind Bool :=
  match _embed_text w text with
  | .error k => .error k
  | .ok none => .ok false
  | .ok (some vec) =>
    if vec = [] then .ok false
    else
      match w.searchCall (dedupRequest collection vec) with
      | .error k => .error k
      | .ok [] => .ok false
      | .ok (hit :: _) =>
        match hit.score? with
        | none => .error .keyError
        | some cos =>
          let jac : ℚ := if hit.data = "" then 0 else _jaccard_word_overlap text hit.data
          .ok (decide (_DEDUP_THRESHOLD ≤
            _DEDUP_COSINE_WEIGHT * cos + _DEDUP_JACCARD_WEIGHT * jac))

/-- extract.py lines 349-373, `_is_duplicate`: the try body wrapped by
`except (httpx.HTTPError, KeyError, IndexError)` falling through to
`return False`. -/
def _is_duplicate (w : World) (collection text : String) : Except ExcKind Bool :=
  match isDupBody w collection text with
  | .ok b => .ok b
  | .error k => if dedupCaught k then .ok false else .error k

/-- The exception classes caught by `_expand_queries`'s
`except (json.JSONDecodeError, IndexError, AttributeError)` at extract.py
line 292. -/
def expandCaught (k : ExcKind) : Bool :=
  k = .jsonDecodeError || k = .indexError || k = .attributeError

/-- Project a JSON array element to a string, as the `isinstance(variant,
str)` filter at extract.py line 290 does. -/
def PyVal.str? : PyVal → Option String
  | .str s => some s
  | .notStr => none

/-- extract.py lines 275-294, `_expand_queries`: on a caught exception or
an empty / non-list parse the original query is the sole variant; an
exception of any other class propagates; on a list parse the original query
is followed by the first 3 string elements. -/
def _expand_queries (w : World) (query : String) : Except ExcKind (List String) :=
  match w.expandCall query with
  | .raise k => if expandCaught k then .ok [query] else .error k
  | .noText => .ok [query]
  | .json .notArr => .ok [query]
  | .json (.arr items) => .ok (query :: (items.filterMap PyVal.str?).take 3)

/-- extract.py lines 92-99: the legs one query variant contributes.  The
dense leg is appended only when `_embed_text` yields a truthy (non-empty)
vector, the sparse leg only when `_sparse_encode` yields a dict; both carry
prefetch limit 20 and the two-field `should` user filter. -/
def variantLegs (w : World) (uid variant : String) : Except ExcKind (List Leg) :=
  match _embed_text w variant with
  | .error k => .error k
  | .ok dense =>
    let denseLegs : List Leg :=
      match dense with
      | some vec =>
        if vec = [] then []
        else [{ query := .dense vec, limit := _PREFETCH_LIMIT, filter := userFilter uid }]
      | none => []
    let sparseLegs : List Leg :=
      match _sparse_encode w variant with
      | some sv => [{ query := .sparse sv, limit := _PREFETCH_LIMIT, filter := userFilter uid }]
      | none => []
    .ok (denseLegs ++ sparseLegs)

/-- The prefetch list accumulated by the loop at extract.py lines 91-99. -/
def buildPrefetch (w : World) (uid : String) : List String → Except ExcKind (List Leg)
  | [] => .ok []
  | v :: rest =>
    match variantLegs w uid v with
    | .error k => .error k
    | .ok legs =>
      match buildPrefetch w uid rest with
      | .error k => .error k
      | .ok more => .ok (legs ++ more)

/-- extract.py lines 74-109, `hybrid_search`: optional expansion, leg
construction per variant, early empty return when no leg was built, and
otherwise one fusion query with `{"fusion": "rrf"}`, the caller's limit and
`with_payload` — whose result is returned as-is. -/
def hybrid_search (w : World) (collection query uid : String) (limit : Nat)
    (expand : Bool) : Except ExcKind (List Point) :=
  match (if expand then _expand_queries w query else .ok [query]) with
  | .error k => .error k
  | .ok queries =>
    match buildPrefetch w uid queries with
    | .error k => .error k
    | .ok prefetch =>
      if prefetch.isEmpty then .ok []
      else w.fusionCall
        { collection := collection, prefetch := prefetch, fusion := "rrf",
          limit := limit, withPayload := true }

/-- Stand-in for the `_DEVELOPER_INSTRUCTIONS` prompt literal of
prompts.py lines 78-122; its exact text is irrelevant to every claim, only
its position in the concatenation built by `build_prompt` matters. -/
def DEVELOPER_INSTRUCTIONS : String :=
  "You are a developer workflow knowledge curator."

/-- Stand-in for the `_SHARED_RULES` prompt literal of prompts.py lines
20-69; only its position in the concatenation matters. -/
def _SHARED_RULES : String :=
  "EXTRACTION GATES - apply in order, stop if any gate rejects."

/-- prompts.py lines 72-73, `_date_line`: the date line is always rendered
from `datetime.now()` — the process-time date, modelled by the argument the
`World` supplies. -/
def _date_line (today : Int) : String :=
  "\n\nTodays date is " ++ toString today ++ "."

/-- prompts.py lines 125-127, `_DOMAIN_INSTRUCTIONS` (the base dict; the
optional MEMORY_DOMAINS_FILE extension is absent by default). -/
def _DOMAIN_INSTRUCTIONS : List (String × String) :=
  [("developer", DEVELOPER_INSTRUCTIONS)]

/-- prompts.py lines 186-195, `build_prompt`: raises ValueError on an
unknown domain, otherwise returns instructions + shared rules + the
`datetime.now()` date line.  Its Python signature declares exactly ONE
positional parameter, `domain` (`today` here is the ambient clock, not a
parameter of the Python function). -/
def build_prompt (domain : String) (today : Int) : Except ExcKind String :=
  match _DOMAIN_INSTRUCTIONS.lookup domain with
  | none => .error .valueError
  | some instructions => .ok (instructions ++ _SHARED_RULES ++ _date_line today)

/-- The number of positional parameters `build_prompt` declares
(prompts.py line 186: `def build_prompt(domain: str) -> str`). -/
def buildPromptParamCount : Nat := 1

/-- The number of positional arguments extract.py line 126 passes:
`build_prompt(domain, reference_date)`. -/
def buildPromptCallArgCount : Nat := 2

/-- The call `prompt = build_prompt(domain, reference_date)` at extract.py
line 126, under Python's calling convention: a call whose positional
argument count differs from the callee's declared parameter count raises
TypeError before the callee body runs.  Note that the supplied reference
date cannot reach the prompt: `build_prompt` has no parameter for it. -/
def callBuildPrompt (domain : String) (today : Int) : Except ExcKind String :=
  if buildPromptCallArgCount = buildPromptParamCount then build_prompt domain today
  else .error .typeError

/-- extract.py lines 263-272, `_parse_response`, combined with the
`generate_content` call of one attempt: empty text and a caught
JSONDecodeError both give None; an exception from the generate call itself
propagates (the retry loop at lines 141-147 has no try/except). -/
def _parse_response : GenOutcome → Except ExcKind (Option ParsedVal)
  | .raise k => .error k
  | .noText => .ok none
  | .parseFail => .ok none
  | .parsed v => .ok (some v)

/-- The retry loop of extract.py lines 140-147: `_MAX_RETRIES = 1`, hence
exactly two attempts; the loop stops at the first attempt whose parse is
not None. -/
def extractLoop (w : World) : Except ExcKind (Option ParsedVal) :=
  match _parse_response (w.genCall 0) with
  | .error k => .error k
  | .ok (some v) => .ok (some v)
  | .ok none => _parse_response (w.genCall 1)

/-- The post-filter predicate of the list comprehension at extract.py lines
155-161: `fact.get("specificity_score", 0) >= _MIN_SPECIFICITY and
fact.get("temporal_scope") != "ephemeral" and len(fact.get("entities", ()))
> 0`. -/
def keepFact (f : FactC) : Bool :=
  decide (_MIN_SPECIFICITY ≤ f.specificity_score.getD 0)
    && (f.temporal_scope != some "ephemeral")
    && decide (0 < (f.entities.getD []).length)

/-- The list comprehension at extract.py lines 155-161. -/
def postFilter (facts : List FactC) : List FactC :=
  facts.filter keepFact

/-- extract.py lines 112-164, `extract_facts`: the empty/short gate, the
low-entropy gate, the `build_prompt(domain, reference_date)` call, the
two-attempt extraction loop, and the post-filter.  `referenceDate` is the
optional reference date the caller supplies; observe that the code has no
way to hand it to `build_prompt`, whose Python signature takes only the
domain (the two-positional-argument call raises TypeError). -/
def extract_facts (w : World) (text domain : String)
    (_referenceDate : Option Int) : Except ExcKind (List FactC) :=
  if text = "" ∨ (pyStrip text).length < 20 then .ok []
  else if _is_low_entropy text then .ok []
  else
    match callBuildPrompt domain w.today with
    | .error k => .error k
    | .ok _prompt =>
      match extractLoop w with
      | .error k => .error k
      | .ok none => .ok []
      | .ok (some .nonDict) => .error .attributeError
      | .ok (some (.dict facts?)) => .ok (postFilter (facts?.getD []))

/-- The items the add result reported, as the loop at extract.py lines
325-329 sees them (a non-dict result or an absent / non-iterable "results"
value contributes no item). -/
def reportedItems : AddResult → List AddItem
  | .dict (.items its) => its
  | _ => []

/-- The loop body of `_upsert_sparse_vector` (extract.py lines 326-336)
over the reported items: skip falsy ids and events other than ADD/UPDATE,
skip when sparse encoding fails, otherwise PUT the sparse vector to that
point id; a failing PUT raises httpx.HTTPError, which the surrounding
except catches, aborting the remaining items without raising.  Returns the
PUTs issued, in order. -/
def upsertLoop (w : World) (collection text : String) : List AddItem → List SparsePut
  | [] => []
  | item :: rest =>
    match item.id with
    | none => upsertLoop w collection text rest
    | some pid =>
      if pid = "" then upsertLoop w collection text rest
      else if item.event ≠ some "ADD" ∧ item.event ≠ some "UPDATE" then
        upsertLoop w collection text rest
      else
        match _sparse_encode w text with
        | none => upsertLoop w collection text rest
        | some sv =>
          if w.putOutcome pid then
            { collection := collection, pointId := pid, sparse := sv } ::
              upsertLoop w collection text rest
          else [{ collection := collection, pointId := pid, sparse := sv }]

/-- extract.py lines 322-338, `_upsert_sparse_vector`: iterate the reported
items; every exception of the classes the code anticipates
(httpx.HTTPError from the PUT, TypeError from a non-iterable "results") is
caught, so the function never raises to `store_facts`.  The value is the
list of sparse-vector PUTs issued. -/
def _upsert_sparse_vector (w : World) (collection : String) (addResult : AddResult)
    (text : String) : List SparsePut :=
  upsertLoop w collection text (reportedItems addResult)

/-- The condition `collection_name and _is_duplicate(collection_name,
fact["content"])` at extract.py line 205: no collection name means the
check is skipped (not duplicate); an uncaught dedup exception propagates,
since `store_facts` has no try/except. -/
def dedupGate (w : World) (collection? : Option String) (text : String) :
    Except ExcKind Bool :=
  match collection? with
  | some c => _is_duplicate w c text
  | none => .ok false

/-- The conditional sparse upsert at extract.py lines 230-231: issued
only when a collection name was supplied, with the result of the i-th
`memory.add` call. -/
def storePuts (w : World) (collection? : Option String) (i : Nat)
    (text : String) : List SparsePut :=
  match collection? with
  | some c => _upsert_sparse_vector w c (w.addCall i) text
  | none => []

/-- The per-fact loop of `store_facts` (extract.py lines 204-231): dedup
check, then `memory.add`, then `stored += 1`, then the sparse upsert.
`i` numbers the `memory.add` calls.  Returns the stored count and the
sparse PUTs issued. -/
def storeLoop (w : World) (collection? : Option String) :
    List FactC → Nat → Except ExcKind (Nat × List SparsePut)
  | [], _ => .ok (0, [])
  | fact :: rest, i =>
    match dedupGate w collection? fact.content with
    | .error k => .error k
    | .ok true => storeLoop w collection? rest i
    | .ok false =>
      match storeLoop w collection? rest (i + 1) with
      | .error k => .error k
      | .ok (n, laterPuts) =>
        .ok (n + 1, storePuts w collection? i fact.content ++ laterPuts)

/-- extract.py lines 189-234, `store_facts`: returns the count of stored
facts; the sparse PUTs issued are carried alongside so the theorems can
speak about them.  (`uid` and the metadata dict do not influence anything
the claims observe; the metadata is handed to `memory.add`, whose reply the
`World` supplies.) -/
def store_facts (w : World) (facts : List FactC) (_uid : String)
    (collection? : Option String) : Except ExcKind (Nat × List SparsePut) :=
  storeLoop w collection? facts 0

/-- Whether a prefetch leg is a dense leg. -/
def legIsDense (l : Leg) : Bool :=
  match l.query with
  | .dense _ => true
  | .sparse _ => false

/-- Whether a prefetch leg is a sparse leg. -/
def legIsSparse (l : Leg) : Bool :=
  match l.query with
  | .dense _ => false
  | .sparse _ => true

/-- A concrete gate-passing input: 160 characters, 20 distinct words of
length above 2. -/
def T20 : String :=
  "alpha01 bravo02 charlie03 delta04 echo05 foxtrot06 golf07 hotel08 india09 juliet10 kilo11 lima12 mike13 november14 oscar15 papa16 quebec17 romeo18 sierra19 tango20"

/-- A short candidate-fact text used by concrete dedup scenarios. -/
def Tdup : String := "alpha bravo charlie"

/-- A second candidate-fact text used by the cross-user dedup scenario. -/
def TdupB : String := "delta echo foxtrot"

/-- A neutral world: every collaborator answers with the empty / trivial
response and no call raises. -/
def W0 : World where
  today := 0
  embedCall := fun _ => .ok []
  searchCall := fun _ => .ok []
  sparseCall := fun _ => none
  expandCall := fun _ => .noText
  genCall := fun _ => .noText
  fusionCall := fun _ => .ok []
  addCall := fun _ => .notDict
  putOutcome := fun _ => true

/-- A stored point whose cosine score places the hybrid score exactly at
0.8499999 against an identical text (jaccard = 1):
0.7 * (5499999/7000000) + 0.3 * 1 = 8499999/10000000. -/
def hit1 : Hit where
  score? := some (5499999 / 7000000)
  data := Tdup
  userId := "alice"

/-- A world whose store returns `hit1` as the nearest neighbour. -/
def W1 : World :=
  { W0 with
    embedCall := fun _ => .ok [[1]]
    searchCall := fun _ => .ok [hit1] }

/-- A world whose embedding endpoint returns a body that is not JSON, so
`response.json()` inside `_embed_text` raises JSONDecodeError. -/
def Wjson : World :=
  { W0 with embedCall := fun _ => .error .jsonDecodeError }

/-- A stored point owned by user "bob" that matches a candidate text
perfectly (cosine 1, identical stored text). -/
def hitOther : Hit where
  score? := some 1
  data := TdupB
  userId := "bob"

/-- A world whose store holds only bob's point. -/
def Wother : World :=
  { W0 with
    embedCall := fun _ => .ok [[1]]
    searchCall := fun _ => .ok [hitOther] }

/-- A world whose expansion LLM call raises a transport-class error
(httpx-level), which is not among the classes `_expand_queries` catches. -/
def Whttp : World :=
  { W0 with expandCall := fun _ => .raise .httpError }

/-- A world whose expansion LLM call fails with JSONDecodeError, one of the
classes `_expand_queries` catches. -/
def Wjd : World :=
  { W0 with expandCall := fun _ => .raise .jsonDecodeError }

/-- A candidate fact that passes the post-filter. -/
def factGood : FactC where
  content := "Project uses pnpm workspaces with Turborepo monorepo"
  category := some "codebase_structure"
  temporal_scope := some "stable"
  specificity_score := some 4
  source_type := some "explicit_statement"
  entities := some ["pnpm", "Turborepo"]
  valid_at := none
  expires_at := none

/-- A candidate fact the post-filter drops (ephemeral, low specificity, no
entities). -/
def factBad : FactC where
  content := "is currently testing something"
  category := none
  temporal_scope := some "ephemeral"
  specificity_score := some 1
  source_type := none
  entities := none
  valid_at := none
  expires_at := none

/-- A concrete sparse vector. -/
def sv0 : SparseVec where
  indices := [3, 17]
  values := [1 / 2, 1 / 3]

/-- A concrete `memory.add` result reporting one newly created point. -/
def addR0 : AddResult :=
  .dict (.items [{ id := some "pid1", event := some "ADD" }])

/-- A world for the store scenario: sparse encoding succeeds and the add
call reports `addR0`. -/
def Wadd : World :=
  { W0 with
    sparseCall := fun _ => some sv0
    addCall := fun _ => addR0 }

set_option maxRecDepth 8000

/-- Jaccard word overlap of a text with itself is 1 whenever it has at
least one word of length above 2. -/
theorem jaccard_self (t : String) (h : wordSet t ≠ ∅) :
    _jaccard_word_overlap t t = 1 := by
  unfold _jaccard_word_overlap
  simp only [Finset.inter_self, Finset.union_self]
  rw [if_neg (by tauto)]
  have hc : (wordSet t).card ≠ 0 := by
    simpa [Finset.card_eq_zero] using h
  field_simp

/-- C1: when the embedding succeeds with a truthy vector and the store
returns a nearest neighbour carrying a score, `_is_duplicate` answers true
iff 0.7 * cosine + 0.3 * jaccard reaches the 0.85 threshold, where jaccard
is the word-set intersection-over-union of the candidate and the matched
text (words lowercased, length above 2) and is taken as 0 when the matched
point has no stored text.  The boundary instance with hybrid score
0.8499999 (classified not duplicate) is the witness below. -/
theorem is_duplicate_threshold (w : World) (collection text : String) (vec : Dense)
    (hit : Hit) (rest : List Hit) (cos : ℚ)
    (hemb : _embed_text w text = .ok (some vec)) (hne : vec ≠ [])
    (hsearch : w.searchCall (dedupRequest collection vec) = .ok (hit :: rest))
    (hscore : hit.score? = some cos) :
    _is_duplicate w collection text =
      .ok (decide (_DEDUP_THRESHOLD ≤
        _DEDUP_COSINE_WEIGHT * cos + _DEDUP_JACCARD_WEIGHT *
          (if hit.data = "" then 0 else _jaccard_word_overlap text hit.data))) := by
  unfold _is_duplicate isDupBody
  rw [hemb]
  simp only [if_neg hne]
  rw [hsearch]
  simp only []
  rw [hscore]

/-- Witness for C1: in the world `W1` the nearest neighbour stores the
candidate text itself (jaccard = 1) with cosine 5499999/7000000, so the
hybrid score is exactly 0.8499999 and the candidate is classified not
duplicate. -/
theorem is_duplicate_threshold_w :
    _is_duplicate W1 "facts" Tdup = .ok false := by
  have h := is_duplicate_threshold W1 "facts" Tdup [1] hit1 [] (5499999 / 7000000)
    rfl (by decide) rfl rfl
  have hd : hit1.data = Tdup := rfl
  have hjac : _jaccard_word_overlap Tdup Tdup = 1 := jaccard_self Tdup (by decide)
  have hne : ¬(Tdup = "") := by decide
  rw [h, hd, if_neg hne, hjac]
  simp only [Except.ok.injEq, decide_eq_false_iff_not]
  norm_num [_DEDUP_THRESHOLD, _DEDUP_COSINE_WEIGHT, _DEDUP_JACCARD_WEIGHT]

/-- C7 counterexample: a parsing failure is not always treated as "not
duplicate" — when the embedding endpoint returns a non-JSON body,
`response.json()` raises JSONDecodeError, which is in neither
`_embed_text`'s nor `_is_duplicate`'s except tuple, so `_is_duplicate`
raises instead of returning false. -/
theorem is_duplicate_json_error_cx :
    _is_duplicate Wjson "facts" "brand new fact text" = .error .jsonDecodeError := rfl

/-- C7 (amended): `_is_duplicate` returns false and does not raise whenever
the embedding yields no vector or an empty vector, the search returns no
result, or a failure of one of the caught classes (httpx.HTTPError,
KeyError, IndexError) occurs — including a transport error of either call
and a missing "score" key; a JSONDecodeError of a collaborator response,
however, propagates (see the counterexample). -/
theorem is_duplicate_fail_open (w : World) (collection text : String) :
    (_embed_text w text = .ok none → _is_duplicate w collection text = .ok false)
    ∧ (_embed_text w text = .ok (some []) → _is_duplicate w collection text = .ok false)
    ∧ (∀ vec, _embed_text w text = .ok (some vec) → vec ≠ [] →
        w.searchCall (dedupRequest collection vec) = .ok [] →
        _is_duplicate w collection text = .ok false)
    ∧ (∀ k, w.embedCall text = .error k → dedupCaught k = true →
        _is_duplicate w collection text = .ok false)
    ∧ (∀ vec k, _embed_text w text = .ok (some vec) → vec ≠ [] →
        w.searchCall (dedupRequest collection vec) = .error k → dedupCaught k = true →
        _is_duplicate w collection text = .ok false)
    ∧ (∀ vec hit rest, _embed_text w text = .ok (some vec) → vec ≠ [] →
        w.searchCall (dedupRequest collection vec) = .ok (hit :: rest) →
        hit.score? = none → _is_duplicate w collection text = .ok false) := by
  refine ⟨?_, ?_, ?_, ?_, ?_, ?_⟩
  · intro h
    unfold _is_duplicate isDupBody
    rw [h]
  · intro h
    unfold _is_duplicate isDupBody
    rw [h]
    simp
  · intro vec h hne hs
    unfold _is_duplicate isDupBody
    rw [h]
    simp only [if_neg hne]
    rw [hs]
  · intro k hk hcaught
    have hcond : k = .httpError ∨ k = .keyError ∨ k = .indexError := by
      simp only [dedupCaught, Bool.or_eq_true, decide_eq_true_eq] at hcaught
      tauto
    have : _embed_text w text = .ok none := by
      unfold _embed_text
      rw [hk]
      simp [hcond]
    unfold _is_duplicate isDupBody
    rw [this]
  · intro vec k h hne hs hcaught
    unfold _is_duplicate isDupBody
    rw [h]
    simp only [if_neg hne]
    rw [hs]
    simp [hcaught]
  · intro vec hit rest h hne hs hscore
    unfold _is_duplicate isDupBody
    rw [h]
    simp only [if_neg hne]
    rw [hs]
    simp only []
    rw [hscore]
    simp [dedupCaught]

/-- Witness for C7: in the neutral world the embedding yields no vector and
the dedup check fails open to false. -/
theorem is_duplicate_fail_open_w :
    _is_duplicate W0 "facts" "anything at all" = .ok false :=
  (is_duplicate_fail_open W0 "facts" "anything at all").1 rfl

/-- C10: the nearest-neighbour request `_is_duplicate` issues has no user
filter — only the vector, limit 1 and with_payload — and its decision is
invariant under arbitrary rewriting of the matched points' user_id payload
field; concretely, a candidate is classified duplicate against a point
stored under user "bob" regardless of who is storing. -/
theorem dedup_request_no_user_filter (w : World) (collection text : String)
    (vec : Dense) (f : String → String) :
    (dedupRequest collection vec).filter = none
    ∧ (dedupRequest collection vec).limit = 1
    ∧ (dedupRequest collection vec).withPayload = true
    ∧ _is_duplicate
        { w with searchCall := fun r =>
            (w.searchCall r).map (List.map fun h => { h with userId := f h.userId }) }
        collection text = _is_duplicate w collection text
    ∧ _is_duplicate Wother "facts" TdupB = .ok true := by
  refine ⟨rfl, rfl, rfl, ?_, ?_⟩
  · have hemb : _embed_text
        { w with searchCall := fun r =>
            (w.searchCall r).map (List.map fun h => { h with userId := f h.userId }) }
        text = _embed_text w text := rfl
    unfold _is_duplicate isDupBody
    rw [hemb]
    cases hw : _embed_text w text with
    | error k => rfl
    | ok es =>
      cases es with
      | none => rfl
      | some v =>
        by_cases hv : v = []
        · simp [hv]
        · simp only [if_neg hv]
          cases hs : w.searchCall (dedupRequest collection v) with
          | error k => simp [Except.map, hs]
          | ok hits =>
            cases hits with
            | nil => simp [Except.map, hs]
            | cons hit rest => simp [Except.map, hs]
  · have hjac : _jaccard_word_overlap TdupB TdupB = 1 := jaccard_self TdupB (by decide)
    have hh : hitOther.data = TdupB := rfl
    have hge : _DEDUP_THRESHOLD ≤ _DEDUP_COSINE_WEIGHT * 1 + _DEDUP_JACCARD_WEIGHT * 1 := by
      norm_num [_DEDUP_THRESHOLD, _DEDUP_COSINE_WEIGHT, _DEDUP_JACCARD_WEIGHT]
    have hne : ¬(TdupB = "") := by decide
    unfold _is_duplicate isDupBody
    have he : _embed_text Wother TdupB = .ok (some [1]) := rfl
    rw [he]
    simp only [if_neg (by decide : ¬([1] : Dense) = [])]
    have hs : Wother.searchCall (dedupRequest "facts" [1]) = .ok [hitOther] := rfl
    rw [hs]
    simp only []
    have hsc : hitOther.score? = some 1 := rfl
    rw [hsc, hh, if_neg hne, hjac]
    simp only [Except.ok.injEq, decide_eq_true_eq]
    norm_num [_DEDUP_THRESHOLD, _DEDUP_COSINE_WEIGHT, _DEDUP_JACCARD_WEIGHT]

/-- C6 counterexample: the expansion call erroring does not always degrade
to the original query — an exception outside the caught classes (here an
httpx-level transport error from the Gemini call) propagates out of
`_expand_queries`, so `hybrid_search` with expand=true raises instead of
proceeding. -/
theorem expand_error_propagates_cx :
    _expand_queries Whttp "what database does the project use" = .error .httpError
      ∧ hybrid_search Whttp "facts" "what database does the project use" "alice" 7 true
          = .error .httpError := ⟨rfl, rfl⟩

/-- C6 (amended): when the expansion call fails with one of the caught
classes (JSONDecodeError, IndexError, AttributeError) or returns empty or
non-list output, `_expand_queries` returns exactly the original query as
the sole variant and `hybrid_search` with expand=true behaves as without
expansion; on success it returns the original query first followed by at
most 3 string paraphrases, so every returned variant list starts with the
original query and has length between 1 and 4.  An exception of any other
class propagates (see the counterexample). -/
theorem expand_fail_open (w : World) (query : String) :
    (∀ k, w.expandCall query = .raise k → expandCaught k = true →
      _expand_queries w query = .ok [query])
    ∧ (w.expandCall query = .noText → _expand_queries w query = .ok [query])
    ∧ (w.expandCall query = .json .notArr → _expand_queries w query = .ok [query])
    ∧ (∀ items, w.expandCall query = .json (.arr items) →
        _expand_queries w query = .ok (query :: (items.filterMap PyVal.str?).take 3))
    ∧ (∀ l, _expand_queries w query = .ok l →
        l.head? = some query ∧ 1 ≤ l.length ∧ l.length ≤ 4)
    ∧ (∀ k collection uid limit, w.expandCall query = .raise k → expandCaught k = true →
        hybrid_search w collection query uid limit true =
          hybrid_search w collection query uid limit false) := by
  refine ⟨?_, ?_, ?_, ?_, ?_, ?_⟩
  · intro k hk hcaught
    unfold _expand_queries
    rw [hk]
    simp [hcaught]
  · intro hk
    unfold _expand_queries
    rw [hk]
  · intro hk
    unfold _expand_queries
    rw [hk]
  · intro items hk
    unfold _expand_queries
    rw [hk]
  · intro l hl
    unfold _expand_queries at hl
    cases hk : w.expandCall query with
    | raise k =>
      rw [hk] at hl
      by_cases hc : expandCaught k = true
      · simp only [if_pos hc] at hl
        cases hl
        simp
      · simp only [if_neg hc] at hl
        cases hl
    | noText =>
      rw [hk] at hl
      cases hl
      simp
    | json v =>
      cases v with
      | notArr =>
        rw [hk] at hl
        cases hl
        simp
      | arr items =>
        rw [hk] at hl
        cases hl
        refine ⟨rfl, by simp, ?_⟩
        have := List.length_take_le 3 (items.filterMap PyVal.str?)
        simp only [List.length_cons]
        omega
  · intro k collection uid limit hk hcaught
    have h1 : _expand_queries w query = .ok [query] := by
      unfold _expand_queries
      rw [hk]
      simp [hcaught]
    unfold hybrid_search
    rw [if_pos rfl, if_neg (by simp : ¬(false = true)), h1]

/-- Witness for C6: a JSONDecodeError from the expansion call (a caught
class) degrades to exactly the original query. -/
theorem expand_fail_open_w :
    _expand_queries Wjd "what database does the project use" =
      .ok ["what database does the project use"] :=
  (expand_fail_open Wjd "what database does the project use").1 .jsonDecodeError rfl rfl

/-- C8: for every query variant `hybrid_search` builds at most one dense
and at most one sparse prefetch leg, each with prefetch limit 20 and the
two-field should-filter matching the caller user id on "user_id" OR
"userId"; a variant whose embedding yields no (or an empty) vector
contributes no dense leg and one whose sparse encoding fails contributes no
sparse leg; when no leg at all was built the function returns the empty
list for every possible store behaviour (no fusion query is issued), and
otherwise it issues one rrf fusion query carrying the caller's limit, whose
result it returns. -/
theorem hybrid_search_legs (w : World) (uid v : String) :
    (∀ legs, variantLegs w uid v = .ok legs →
      legs.countP legIsDense ≤ 1
        ∧ legs.countP legIsSparse ≤ 1
        ∧ (∀ l ∈ legs, l.limit = _PREFETCH_LIMIT ∧ l.filter = userFilter uid)
        ∧ ((_embed_text w v = .ok none ∨ _embed_text w v = .ok (some [])) →
            legs.countP legIsDense = 0)
        ∧ (_sparse_encode w v = none → legs.countP legIsSparse = 0))
    ∧ (userFilter uid).should =
        [{ key := "user_id", value := uid }, { key := "userId", value := uid }]
    ∧ (∀ collection limit f', buildPrefetch w uid [v] = .ok [] →
        hybrid_search { w with fusionCall := f' } collection v uid limit false = .ok [])
    ∧ (∀ collection limit prefetch, buildPrefetch w uid [v] = .ok prefetch →
        prefetch ≠ [] →
        hybrid_search w collection v uid limit false =
          w.fusionCall { collection := collection, prefetch := prefetch, fusion := "rrf",
                         limit := limit, withPayload := true }) := by
  refine ⟨?_, rfl, ?_, ?_⟩
  · intro legs h
    unfold variantLegs at h
    cases he : _embed_text w v with
    | error k => rw [he] at h; cases h
    | ok dense =>
      rw [he] at h
      cases hs : _sparse_encode w v with
      | none =>
        rw [hs] at h
        cases dense with
        | none =>
          cases h
          refine ⟨by simp [legIsDense], by simp [legIsSparse], by simp, ?_, ?_⟩
          · intro _
            simp [legIsDense]
          · intro _
            simp [legIsSparse]
        | some vec =>
          by_cases hv : vec = []
          · simp only [if_pos hv] at h
            cases h
            refine ⟨by simp [legIsDense], by simp [legIsSparse], by simp, ?_, ?_⟩
            · intro _
              simp [legIsDense]
            · intro _
              simp [legIsSparse]
          · simp only [if_neg hv] at h
            cases h
            refine ⟨by simp [legIsDense], by simp [legIsSparse], ?_, ?_, ?_⟩
            · intro l hl
              simp only [List.append_nil, List.mem_singleton] at hl
              subst hl
              exact ⟨rfl, rfl⟩
            · intro hzero
              rcases hzero with hz | hz
              · simp at hz
              · simp only [Except.ok.injEq, Option.some.injEq] at hz
                exact absurd hz hv
            · intro _
              simp [legIsSparse]
      | some sv =>
        rw [hs] at h
        cases dense with
        | none =>
          cases h
          refine ⟨by simp [legIsDense], by simp [legIsSparse], ?_, ?_, ?_⟩
          · intro l hl
            simp only [List.nil_append, List.mem_singleton] at hl
            subst hl
            exact ⟨rfl, rfl⟩
          · intro _
            simp [legIsDense]
          · intro hz
            simp at hz
        | some vec =>
          by_cases hv : vec = []
          · simp only [if_pos hv] at h
            cases h
            refine ⟨by simp [legIsDense], by simp [legIsSparse], ?_, ?_, ?_⟩
            · intro l hl
              simp only [List.nil_append, List.mem_singleton] at hl
              subst hl
              exact ⟨rfl, rfl⟩
            · intro _
              simp [legIsDense]
            · intro hz
              simp at hz
          · simp only [if_neg hv] at h
            cases h
            refine ⟨by simp [legIsDense, legIsSparse], by simp [legIsDense, legIsSparse],
              ?_, ?_, ?_⟩
            · intro l hl
              simp only [List.cons_append, List.nil_append, List.mem_cons,
                List.mem_singleton, List.not_mem_nil, or_false] at hl
              rcases hl with hl | hl <;> subst hl <;> exact ⟨rfl, rfl⟩
            · intro hzero
              rcases hzero with hz | hz
              · simp at hz
              · simp only [Except.ok.injEq, Option.some.injEq] at hz
                exact absurd hz hv
            · intro hz
              simp at hz
  · intro collection limit f' h
    have h2 : buildPrefetch
        { w with fusionCall := f' } uid [v] = .ok [] := h
    unfold hybrid_search
    simp [h2]
  · intro collection limit prefetch h hne
    unfold hybrid_search
    simp [h, List.isEmpty_iff, hne]

/-- Witness for C8: in the neutral world no leg can be built for the
variant, so the search returns the empty list without a fusion query; and
the user filter carries both historical field names. -/
theorem hybrid_search_legs_w :
    (userFilter "alice").should =
      [{ key := "user_id", value := "alice" }, { key := "userId", value := "alice" }]
    ∧ hybrid_search W0 "facts" "query text" "alice" 7 false = .ok [] := by
  refine ⟨(hybrid_search_legs W0 "alice" "query text").2.1, ?_⟩
  exact (hybrid_search_legs W0 "alice" "query text").2.2.1 "facts" 7 W0.fusionCall rfl

/-- The concrete text T20 does not trip the empty/short gate. -/
theorem T20_not_short : ¬(T20 = "" ∨ (pyStrip T20).length < 20) := by decide

/-- The concrete text T20 is not low-entropy: 160 characters and 20 unique
words of length above 2. -/
theorem T20_not_low_entropy : _is_low_entropy T20 = false := by decide

/-- C3: a text shorter than 100 characters, or with fewer than 15 unique
lowercased words of length above 2, makes extract_facts return the empty
list in EVERY world — the result does not depend on any collaborator, i.e.
no language-model, embedding or store call is made. -/
theorem extract_facts_entropy_gate (w : World) (text domain : String)
    (rd : Option Int)
    (h : text.length < 100 ∨ (wordSet text).card < _MIN_UNIQUE_WORDS) :
    extract_facts w text domain rd = .ok [] := by
  unfold extract_facts
  split
  · rfl
  · have hle : _is_low_entropy text = true := by
      unfold _is_low_entropy
      rcases h with h1 | h2
      · simp [h1]
      · split
        · rfl
        · simpa using h2
    simp [hle]

/-- Witness for C3 at a concrete short text. -/
theorem extract_facts_entropy_gate_w :
    ("too short".length < 100 ∨ (wordSet "too short").card < _MIN_UNIQUE_WORDS)
      ∧ extract_facts W0 "too short" "developer" none = .ok [] :=
  ⟨Or.inl (by decide),
    extract_facts_entropy_gate W0 "too short" "developer" none (Or.inl (by decide))⟩

/-- C4 (code-bug evidence): for a gate-passing input, extract_facts raises
to its caller in every world and for every (even absent) reference date —
the call `build_prompt(domain, reference_date)` at extract.py line 126
passes two positional arguments to a function whose signature (prompts.py
line 186) declares one, a TypeError, reached before any model call, so the
one-retry/empty-list contract can never apply. -/
theorem extract_facts_raises_type_error (w : World) (rd : Option Int) :
    extract_facts w T20 "developer" rd = .error .typeError := by
  unfold extract_facts
  rw [if_neg T20_not_short, T20_not_low_entropy]
  simp only [Bool.false_eq_true, if_false]
  rfl

/-- C5 (code-bug evidence): the supplied reference date is not threaded
into prompt construction.  `build_prompt` has no reference-date parameter —
its date line always renders the processing-time `datetime.now()` value —
and the two-positional-argument call extract.py makes raises TypeError for
every gate-passing input, whatever reference date is supplied. -/
theorem reference_date_not_threaded (w : World) (refd today : Int) :
    extract_facts w T20 "developer" (some refd) = .error .typeError
      ∧ build_prompt "developer" today =
          .ok (DEVELOPER_INSTRUCTIONS ++ _SHARED_RULES ++ _date_line today) := by
  constructor
  · unfold extract_facts
    rw [if_neg T20_not_short, T20_not_low_entropy]
    simp only [Bool.false_eq_true, if_false]
    rfl
  · rfl

/-- C2: every fact surviving the post-filter has specificity at least 3,
a temporal scope other than "ephemeral" and a non-empty entity list; the
post-filter is a plain List.filter, so it preserves the input order and
keeps items unchanged (a sublist of the input); and every fact list
extract_facts returns consists of facts satisfying the keep predicate. -/
theorem post_filter_invariant (facts : List FactC) (w : World)
    (text domain : String) (rd : Option Int) :
    (∀ f ∈ postFilter facts,
      _MIN_SPECIFICITY ≤ f.specificity_score.getD 0
        ∧ f.temporal_scope ≠ some "ephemeral"
        ∧ f.entities.getD [] ≠ [])
    ∧ (postFilter facts).Sublist facts
    ∧ (∀ fs, extract_facts w text domain rd = .ok fs →
        ∀ f ∈ fs, keepFact f = true) := by
  refine ⟨?_, List.filter_sublist _, ?_⟩
  · intro f hf
    have hk : keepFact f = true := List.of_mem_filter hf
    unfold keepFact at hk
    simp only [Bool.and_eq_true, decide_eq_true_eq, bne_iff_ne] at hk
    exact ⟨hk.1.1, hk.1.2, fun hnil => by simp [hnil] at hk⟩
  · intro fs h f hf
    unfold extract_facts at h
    split at h
    · cases h
      cases hf
    · split at h
      · cases h
        cases hf
      · split at h
        · cases h
        · split at h
          · cases h
          · cases h
            cases hf
          · cases h
          · cases h
            exact List.of_mem_filter hf

/-- Witness for C2 at a concrete two-fact candidate list: the surviving
fact is the specific, stable one. -/
theorem post_filter_invariant_w :
    _MIN_SPECIFICITY ≤ factGood.specificity_score.getD 0
      ∧ factGood.temporal_scope ≠ some "ephemeral"
      ∧ factGood.entities.getD [] ≠ [] :=
  (post_filter_invariant [factBad, factGood] W0 "" "developer" none).1
    factGood (by decide)

/-- All sparse PUTs issued by the upsert loop target reported items with a
truthy id and event ADD or UPDATE, in the given collection. -/
theorem upsertLoop_scope (w : World) (collection text : String) :
    ∀ its, ∀ p ∈ upsertLoop w collection text its,
      p.collection = collection
        ∧ ∃ item ∈ its, item.id = some p.pointId
            ∧ (item.event = some "ADD" ∨ item.event = some "UPDATE") := by
  intro its
  induction its with
  | nil => intro p hp; cases hp
  | cons item rest ih =>
    intro p hp
    unfold upsertLoop at hp
    cases hid : item.id with
    | none =>
      rw [hid] at hp
      obtain ⟨hc, it, hmem, hrest⟩ := ih p hp
      exact ⟨hc, it, List.mem_cons_of_mem _ hmem, hrest⟩
    | some pid =>
      rw [hid] at hp
      by_cases hempty : pid = ""
      · simp only [if_pos hempty] at hp
        obtain ⟨hc, it, hmem, hrest⟩ := ih p hp
        exact ⟨hc, it, List.mem_cons_of_mem _ hmem, hrest⟩
      · simp only [if_neg hempty] at hp
        by_cases hev : item.event ≠ some "ADD" ∧ item.event ≠ some "UPDATE"
        · simp only [if_pos hev] at hp
          obtain ⟨hc, it, hmem, hrest⟩ := ih p hp
          exact ⟨hc, it, List.mem_cons_of_mem _ hmem, hrest⟩
        · simp only [if_neg hev] at hp
          have hev' : item.event = some "ADD" ∨ item.event = some "UPDATE" := by
            by_cases h1 : item.event = some "ADD"
            · exact Or.inl h1
            · by_cases h2 : item.event = some "UPDATE"
              · exact Or.inr h2
              · exact absurd ⟨h1, h2⟩ hev
          cases hsv : _sparse_encode w text with
          | none =>
            rw [hsv] at hp
            obtain ⟨hc, it, hmem, hrest⟩ := ih p hp
            exact ⟨hc, it, List.mem_cons_of_mem _ hmem, hrest⟩
          | some sv =>
            rw [hsv] at hp
            by_cases hput : w.putOutcome pid = true
            · simp only [if_pos hput, List.mem_cons] at hp
              rcases hp with hp | hp
              · subst hp
                exact ⟨rfl, item, List.mem_cons_self _ _, hid, hev'⟩
              · obtain ⟨hc, it, hmem, hrest⟩ := ih p hp
                exact ⟨hc, it, List.mem_cons_of_mem _ hmem, hrest⟩
            · simp only [if_neg hput, List.mem_singleton] at hp
              subst hp
              exact ⟨rfl, item, List.mem_cons_self _ _, hid, hev'⟩

/-- The dedup check reads only embedCall and searchCall, so it is invariant
under changing the sparse encoder and PUT outcomes. -/
theorem is_duplicate_sparse_invariant (w : World)
    (s' : String → Option SparseVec) (p' : String → Bool)
    (collection text : String) :
    _is_duplicate { w with sparseCall := s', putOutcome := p' } collection text
      = _is_duplicate w collection text := rfl

/-- The stored count (and error outcome) of the store loop does not depend
on the sparse encoder or on PUT outcomes. -/
theorem storeLoop_count_invariant (w : World)
    (s' : String → Option SparseVec) (p' : String → Bool)
    (collection? : Option String) :
    ∀ facts i,
      (storeLoop { w with sparseCall := s', putOutcome := p' } collection? facts i).map
          Prod.fst
        = (storeLoop w collection? facts i).map Prod.fst := by
  intro facts
  induction facts with
  | nil => intro i; rfl
  | cons fact rest ih =>
    intro i
    have hgate : dedupGate { w with sparseCall := s', putOutcome := p' }
        collection? fact.content = dedupGate w collection? fact.content := by
      cases collection? <;> rfl
    unfold storeLoop
    rw [hgate]
    cases hd : dedupGate w collection? fact.content with
    | error k => rfl
    | ok b =>
      cases b with
      | true => exact ih i
      | false =>
        have h2 := ih (i + 1)
        cases hA : storeLoop { w with sparseCall := s', putOutcome := p' }
            collection? rest (i + 1) with
        | error k =>
          rw [hA] at h2
          cases hB : storeLoop w collection? rest (i + 1) with
          | error k2 =>
            rw [hB] at h2
            simp only [Except.map] at h2
            cases h2
            rfl
          | ok pr =>
            rw [hB] at h2
            simp [Except.map] at h2
        | ok pr =>
          rw [hA] at h2
          cases hB : storeLoop w collection? rest (i + 1) with
          | error k2 =>
            rw [hB] at h2
            simp [Except.map] at h2
          | ok pr2 =>
            rw [hB] at h2
            simp only [Except.map, Except.ok.injEq] at h2
            obtain ⟨n, laterPuts⟩ := pr
            obtain ⟨n2, laterPuts2⟩ := pr2
            simp only [Except.map, Except.ok.injEq]
            simp only at h2
            omega

/-- C9: every sparse-vector PUT that store_facts issues targets a point id
the add result reported with event ADD or UPDATE (never any other point),
and the stored count — and whether store_facts raises — is invariant under
any change of the sparse encoder and PUT outcomes: a sparse failure never
loses the fact or raises, the dense point stays counted as stored. -/
theorem sparse_attach_scope (w : World) (collection text : String)
    (ar : AddResult) :
    (∀ p ∈ _upsert_sparse_vector w collection ar text,
      p.collection = collection
        ∧ ∃ item ∈ reportedItems ar,
            item.id = some p.pointId
              ∧ (item.event = some "ADD" ∨ item.event = some "UPDATE"))
    ∧ (∀ facts uid collection? s' p',
        (store_facts { w with sparseCall := s', putOutcome := p' } facts uid
            collection?).map Prod.fst
          = (store_facts w facts uid collection?).map Prod.fst) := by
  constructor
  · intro p hp
    exact upsertLoop_scope w collection text (reportedItems ar) p hp
  · intro facts uid collection? s' p'
    exact storeLoop_count_invariant w s' p' collection? facts 0

/-- Witness for C9: in the concrete store world the single PUT issued
targets "pid1", the one point the add result reported with event ADD. -/
theorem sparse_attach_scope_w :
    ∃ item ∈ reportedItems addR0, item.id = some "pid1"
      ∧ (item.event = some "ADD" ∨ item.event = some "UPDATE") :=
  ((sparse_attach_scope Wadd "facts" "Project uses pnpm workspaces" addR0).1
    { collection := "facts", pointId := "pid1", sparse := sv0 } (List.Mem.head _)).2

end CodeRecall
